import Mathlib

/-!
Verification of the session state machine in `rhythm.js`.

The JavaScript source is embedded shallowly: JS strings become `List Char`,
JS numbers become `ℚ` (times and positions are millisecond quantities, ratios
are fractions), the mutable `gameState` singleton becomes an explicit
`GameState` record threaded through the transition functions, and every call
to `Math.random()` becomes an explicit draw parameter in `[0,1)`.  Side
effects (telemetry posts, UI signals, `setTimeout` scheduling) are returned
as explicit lists of events alongside the updated state.
-/

namespace Rhythm

/-! ## String utilities (`normalizeTrackUri`, `extractTrackId`) -/

/-- `a.startsWith b` on JS strings, as a Boolean on character lists:
`listStartsWith pat s` is true when `pat` is an initial segment of `s`. -/
def listStartsWith : List Char → List Char → Bool
  | [], _ => true
  | _ :: _, [] => false
  | p :: ps, c :: cs => p = c && listStartsWith ps cs

/-- `s.split(':')` from JS: split a character list at every colon. -/
def splitOnColon : List Char → List (List Char)
  | [] => [[]]
  | c :: rest =>
    match splitOnColon rest with
    | [] => [[]]
    | s :: ss => if c = ':' then [] :: s :: ss else (c :: s) :: ss

/-- The literal `'spotify:track:'` scheme used by the track helpers. -/
def trackUriScheme : List Char := "spotify:track:".data

/-- `normalizeTrackUri` from rhythm.js: keep a full URI unchanged, otherwise
prepend the scheme to a bare id. -/
def normalizeTrackUri (trackIdOrUri : List Char) : List Char :=
  if listStartsWith trackUriScheme trackIdOrUri then trackIdOrUri
  else trackUriScheme ++ trackIdOrUri

/-- `extractTrackId` from rhythm.js: `split(':')[2]` of a full URI, identity
on a bare id.  The JS indexing `[2]` is modelled with a default of `[]`. -/
def extractTrackId (trackIdOrUri : List Char) : List Char :=
  if listStartsWith trackUriScheme trackIdOrUri then
    (splitOnColon trackIdOrUri).getD 2 []
  else trackIdOrUri

/-! ## Configuration constants from rhythm.js -/

def ANCHOR_TRACK : List Char := "spotify:track:5FMyXeZ0reYloRTiCkPprT".data

def YOUR_TRACK : List Char := "spotify:track:0YWmeJtd7Fp1tH3978qUIH".data

def FILLER_POOL : List (List Char) :=
  ["spotify:track:2FDTHlrBguDzQkp7PVj16Q".data,
   "spotify:track:21jGcNKet2qwijlDFuPiPb".data,
   "spotify:track:7qiZfU4dY1lWllzX7mPBI3".data,
   "spotify:track:0VjIjW4GlULA7vLyAoIf2Y".data,
   "spotify:track:6WrI0LAC5M1Rw2MnX2ZvEg".data]

structure MsVariant where
  baseMin : ℚ
  baseMax : ℚ
deriving DecidableEq

def REQUIRED_MS_VARIANT : MsVariant := ⟨11 * 60 * 1000, 14 * 60 * 1000⟩

structure RatioDist where
  lowBandProb : ℚ
  midBandProb : ℚ
  hiBandProb : ℚ
deriving DecidableEq

def MIN_TRACK_RATIO_DIST : RatioDist := ⟨15/100, 65/100, 20/100⟩

structure FinishWindow where
  min : ℚ
  max : ℚ
deriving DecidableEq

def EARLY_FINISH_WINDOW : FinishWindow := ⟨80/100, 90/100⟩

structure OrderVariance where
  defaultProb : ℚ
  swap12 : ℚ
  swap23 : ℚ
deriving DecidableEq

def ORDER_VARIANCE : OrderVariance := ⟨75/100, 13/100, 12/100⟩

structure TrackGap where
  min : ℚ
  max : ℚ
  immediateProb : ℚ
deriving DecidableEq

def INTER_TRACK_GAP : TrackGap := ⟨1000, 9000, 15/100⟩

def SHOW_SAVE_PROMPT_PROB : ℚ := 35/100

def NOISE_ENABLE : Bool := true

/-! ## Data model

`GameState` mirrors the fields of the mutable `gameState` singleton that the
session state machine reads and writes.  Timer handles stored in
`sessionTimer`/`unlockTimer` are modelled as "the interval is currently
armed" flags: `setInterval` sets the flag, `clearInterval` clears it. -/

structure GameState where
  currentTrack : ℕ
  trackOrder : List (List Char)
  playlist : Option ℕ
  startedAt : Option ℚ
  sessionDuration : ℚ
  minTrackRatio : ℚ
  earlyFinishThreshold : ℚ
  tracksCompleted : Finset ℕ
  isPlaying : Bool
  currentPosition : ℚ
  currentDuration : ℚ
  sessionTimer : Bool
  unlockTimer : Bool
  completionCode : Option (List Char)
  noiseApplied : Bool
  showSaveButton : Bool
deriving DecidableEq

/-- Initial value of the `gameState` literal in rhythm.js (claim-relevant
fields). -/
def initialGameState : GameState where
  currentTrack := 0
  trackOrder := []
  playlist := none
  startedAt := none
  sessionDuration := 0
  minTrackRatio := 0
  earlyFinishThreshold := 0
  tracksCompleted := ∅
  isPlaying := false
  currentPosition := 0
  currentDuration := 0
  sessionTimer := false
  unlockTimer := false
  completionCode := none
  noiseApplied := false
  showSaveButton := false

/-- One telemetry record handed to `sendTelemetry` (payload details beyond
the track number are not needed by any claim). -/
inductive TelemetryKind where
  | playlistCreated
  | trackStarted (trackNumber : ℕ)
  | trackEnded (trackNumber : ℕ)
  | sessionCompleted
deriving DecidableEq

/-- Observable UI signals emitted at transition points. -/
inductive UiSignal where
  | earlyFinishOption
  | completionShown
deriving DecidableEq

/-- Callbacks handed to `setTimeout` by the state machine, with their delay
argument where one is computed. -/
inductive ScheduledAction where
  | playNextDelayed
  | playCurrentAfter (gapMs : ℚ)
  | noiseInteraction
deriving DecidableEq

/-- A `player_state_changed` payload as consumed by the tick handler. -/
structure PlaybackTick where
  position : ℚ
  duration : ℚ
  paused : Bool
deriving DecidableEq

/-! ## Randomization policy -/

/-- `Math.random() * (max - min) + min`, with the uniform draw `r ∈ [0,1)`
made explicit as the first argument. -/
def randomBetween (r lo hi : ℚ) : ℚ := r * (hi - lo) + lo

/-- `array[Math.floor(Math.random() * array.length)]` with the draw explicit. -/
def randomChoice (r : ℚ) (arr : List (List Char)) : List Char :=
  arr.getD (Int.floor (r * arr.length)).toNat []

/-- `generateTrackOrder` from rhythm.js: pick a filler, start from the base
order `[anchor, your, filler]`, apply the order-variance swap, and normalize
every entry to a full URI.  `rFiller` and `rOrder` are the two
`Math.random()` draws. -/
def generateTrackOrder (rFiller rOrder : ℚ) (s : GameState) : GameState :=
  let filler := randomChoice rFiller FILLER_POOL
  let order :=
    if ORDER_VARIANCE.defaultProb < rOrder then
      if rOrder < ORDER_VARIANCE.defaultProb + ORDER_VARIANCE.swap12 then
        [YOUR_TRACK, ANCHOR_TRACK, filler]
      else
        [ANCHOR_TRACK, filler, YOUR_TRACK]
    else
      [ANCHOR_TRACK, YOUR_TRACK, filler]
  { s with trackOrder := order.map normalizeTrackUri }

/-- The `Math.random()` draws consumed by `generateSessionParameters`, in
call order.  `rRatio` is the draw consumed by whichever band's
`randomBetween` call executes. -/
structure ParamDraws where
  rDuration : ℚ
  rEarly : ℚ
  rBand : ℚ
  rRatio : ℚ
  rSave : ℚ
  rFiller : ℚ
  rOrder : ℚ
deriving DecidableEq

/-- `generateSessionParameters` from rhythm.js. -/
def generateSessionParameters (d : ParamDraws) (s : GameState) : GameState :=
  let dur := randomBetween d.rDuration REQUIRED_MS_VARIANT.baseMin
    REQUIRED_MS_VARIANT.baseMax
  let early := dur * randomBetween d.rEarly EARLY_FINISH_WINDOW.min
    EARLY_FINISH_WINDOW.max
  let ratio :=
    if d.rBand < MIN_TRACK_RATIO_DIST.lowBandProb then
      randomBetween d.rRatio (72/100) (79/100)
    else if d.rBand < MIN_TRACK_RATIO_DIST.lowBandProb +
        MIN_TRACK_RATIO_DIST.midBandProb then
      randomBetween d.rRatio (80/100) (94/100)
    else
      randomBetween d.rRatio (95/100) 1
  let s1 := { s with
    sessionDuration := dur
    earlyFinishThreshold := early
    minTrackRatio := ratio
    showSaveButton := d.rSave < SHOW_SAVE_PROMPT_PROB }
  generateTrackOrder d.rFiller d.rOrder s1

/-- `generateCompletionCode`: the fixed `'PM-'` literal followed by six
characters drawn from the alphanumeric alphabet; the six draws are passed
explicitly.  `charAt` out of range yields the empty string in JS, modelled
by dropping the character via `getD` with a pad that cannot occur for draws
in `[0,1)`. -/
def generateCompletionCode (draws : Fin 6 → ℚ) : List Char :=
  "PM-".data ++ (List.finRange 6).map (fun i =>
    "0123456789ABCDEFGHIJKLMNOPQRSTUVWXYZ".data.getD
      (Int.floor (draws i * 36)).toNat 'X')

/-! ## Session state machine -/

/-- `gameState.startedAt || Date.now()`: JS `||` falls through on the falsy
values `null` and `0`. -/
def startedAtOrNow (startedAt : Option ℚ) (now : ℚ) : ℚ :=
  match startedAt with
  | none => now
  | some t => if t = 0 then now else t

/-- `unlockCompletion` from rhythm.js (also the body of `finishEarly`: the
finish button's click handler is this same function).  Guarded by the
check-and-set on `completionCode`; stops both intervals; emits the
`session_completed` telemetry record. -/
def unlockCompletion (codeDraws : Fin 6 → ℚ) (s : GameState) :
    GameState × List TelemetryKind :=
  if s.completionCode.isSome then (s, [])
  else
    ({ s with
        completionCode := some (generateCompletionCode codeDraws)
        sessionTimer := false
        unlockTimer := false },
     [TelemetryKind.sessionCompleted])

/-- `maybeUnlockCompletion` from rhythm.js (the completion check fired by the
10-second interval and at the end of every playback tick). -/
def maybeUnlockCompletion (now : ℚ) (codeDraws : Fin 6 → ℚ) (s : GameState) :
    GameState × List TelemetryKind × List UiSignal :=
  if s.completionCode.isSome then (s, [], [])
  else
    let elapsed := now - startedAtOrNow s.startedAt now
    let allTracksCompleted := s.tracksCompleted.card = s.trackOrder.length
    if s.sessionDuration ≤ elapsed ∧ allTracksCompleted then
      let r := unlockCompletion codeDraws s
      (r.1, r.2, [UiSignal.completionShown])
    else if s.earlyFinishThreshold ≤ elapsed ∧ allTracksCompleted then
      (s, [], [UiSignal.earlyFinishOption])
    else
      (s, [], [])

/-- `playNextTrack` from rhythm.js: early-return when the current track index
has already reached the end of the order; otherwise emit the `ended`
telemetry for the current track, increment the index, and when the new index
is still within bounds schedule `playCurrentTrack` after the randomized
inter-track gap.  `rImmediate` and `rGap` are the gap draws. -/
def playNextTrack (rImmediate rGap : ℚ) (s : GameState) :
    GameState × List TelemetryKind × List ScheduledAction :=
  if s.trackOrder.length ≤ s.currentTrack then (s, [], [])
  else
    let evs := [TelemetryKind.trackEnded s.currentTrack]
    let s1 := { s with currentTrack := s.currentTrack + 1 }
    if s1.currentTrack ≤ s.trackOrder.length then
      let gapMs := if rImmediate < INTER_TRACK_GAP.immediateProb then 0
        else randomBetween rGap INTER_TRACK_GAP.min INTER_TRACK_GAP.max
      (s1, evs, [ScheduledAction.playCurrentAfter gapMs])
    else
      (s1, evs, [])

/-- `playCurrentTrack` from rhythm.js with the play-command outcome injected
as `playOk`.  A failed play command is caught inside the function (message
shown, nothing rethrown), so the function never propagates an error; on
success it emits the `started` telemetry and may schedule the one-per-session
noise interaction (`rNoise` is that draw). -/
def playCurrentTrack (playOk : Bool) (rNoise : ℚ) (s : GameState) :
    GameState × List TelemetryKind × List ScheduledAction :=
  if s.trackOrder.length < s.currentTrack then (s, [], [])
  else if playOk = false then (s, [], [])
  else
    let sched := if NOISE_ENABLE = true ∧ s.noiseApplied = false ∧
        rNoise < 3/10 then [ScheduledAction.noiseInteraction] else []
    (s, [TelemetryKind.trackStarted s.currentTrack], sched)

/-- Outcomes of the fallible API-client calls reachable from
`startSession`, injected as explicit Booleans (`true` = the call
succeeded / the device was found). -/
structure ApiOutcomes where
  createPlaylistOk : Bool
  addTracksOk : Bool
  getDevicesOk : Bool
  deviceFound : Bool
  transferOk : Bool
  playOk : Bool
deriving DecidableEq

/-- `createPlaylist` from rhythm.js: the playlist-creation POST, then the
assignment `gameState.playlist = playlist`, then the addTracks POST, then
the `playlist_created` telemetry.  The Boolean result is `false` when the
function threw (the state component carries whatever mutations happened
before the throw). -/
def createPlaylist (o : ApiOutcomes) (pl : ℕ) (s : GameState) :
    GameState × Bool × List TelemetryKind :=
  if o.createPlaylistOk = false then (s, false, [])
  else
    let s1 := { s with playlist := some pl }
    if o.addTracksOk = false then (s1, false, [])
    else (s1, true, [TelemetryKind.playlistCreated])

/-- `transferPlayback` from rhythm.js: device listing, device lookup, and
the transfer PUT; any failure rethrows and no game state is mutated. -/
def transferPlayback (o : ApiOutcomes) (s : GameState) : GameState × Bool :=
  if o.getDevicesOk = false then (s, false)
  else if o.deviceFound = false then (s, false)
  else if o.transferOk = false then (s, false)
  else (s, true)

/-- `startSession` from rhythm.js: create the playlist, transfer playback,
set `currentTrack := 1` and `startedAt := now`, issue the first play
command, and arm the two intervals.  The Boolean component is `false` when
the catch branch ran (an error was surfaced to the user). -/
def startSession (o : ApiOutcomes) (pl : ℕ) (now rNoise : ℚ)
    (s : GameState) :
    GameState × Bool × List TelemetryKind × List ScheduledAction :=
  let r1 := createPlaylist o pl s
  if r1.2.1 = false then (r1.1, false, r1.2.2, [])
  else
    let r2 := transferPlayback o r1.1
    if r2.2 = false then (r2.1, false, r1.2.2, [])
    else
      let s3 := { r2.1 with currentTrack := 1, startedAt := some now }
      let r3 := playCurrentTrack o.playOk rNoise s3
      let s4 := { r3.1 with sessionTimer := true, unlockTimer := true }
      (s4, true, r1.2.2 ++ r3.2.1, r3.2.2)

/-- `handlePlayerStateChanged` from rhythm.js: a null state is ignored;
otherwise mirror position/duration/playing into the state, mark the current
track completed when the progress ratio reaches the session threshold,
schedule the delayed `playNextTrack` when the track is about to end, and
finally run the completion check. -/
def handlePlayerStateChanged (now : ℚ) (codeDraws : Fin 6 → ℚ)
    (state : Option PlaybackTick) (s : GameState) :
    GameState × List TelemetryKind × List UiSignal × List ScheduledAction :=
  match state with
  | none => (s, [], [], [])
  | some tick =>
    let s1 := { s with
      currentPosition := tick.position
      currentDuration := tick.duration
      isPlaying := !tick.paused }
    let step :=
      if 0 < s1.currentTrack ∧ 0 < tick.duration then
        let progressRatio := tick.position / tick.duration
        let s2 := if s1.minTrackRatio ≤ progressRatio ∧
            s1.currentTrack ∉ s1.tracksCompleted then
          { s1 with tracksCompleted := insert s1.currentTrack s1.tracksCompleted }
        else s1
        let sched : List ScheduledAction :=
          if tick.duration - 1000 ≤ tick.position ∧ s2.isPlaying = true then
            [ScheduledAction.playNextDelayed]
          else []
        (s2, sched)
      else (s1, ([] : List ScheduledAction))
    let r := maybeUnlockCompletion now codeDraws step.1
    (r.1, r.2.1, r.2.2, step.2)

/-- The progress ratio computed by `updateTrackProgress` for the display,
`none` when the function leaves the bars untouched (index out of 1..3). -/
def updateTrackProgress (s : GameState) : Option ℚ :=
  if 0 < s.currentTrack ∧ s.currentTrack ≤ 3 then
    some (if 0 < s.currentDuration then s.currentPosition / s.currentDuration
      else 0)
  else none

/-! ## Concrete sample states for witnesses and counterexamples -/

/-- A track order as produced by `generateTrackOrder` with the first filler. -/
def sampleOrder : List (List Char) :=
  [ANCHOR_TRACK, YOUR_TRACK, FILLER_POOL.getD 0 []].map normalizeTrackUri

/-- A mid-session running state: track 1 playing, nothing completed yet. -/
def runningState : GameState where
  currentTrack := 1
  trackOrder := sampleOrder
  playlist := some 7
  startedAt := some 1000
  sessionDuration := 300000
  minTrackRatio := 4/5
  earlyFinishThreshold := 240000
  tracksCompleted := ∅
  isPlaying := true
  currentPosition := 0
  currentDuration := 0
  sessionTimer := true
  unlockTimer := true
  completionCode := none
  noiseApplied := false
  showSaveButton := false

/-- `runningState` after the last track: the index already equals the order
length. -/
def exhaustedState : GameState := { runningState with currentTrack := 3 }

/-- `runningState` with every track past the ratio threshold. -/
def completedReadyState : GameState :=
  { runningState with tracksCompleted := {1, 2, 3} }

/-- A tick within the final second of a playing track. -/
def endTick : PlaybackTick where
  position := 179500
  duration := 180000
  paused := false

/-- A tick whose reported duration is zero. -/
def zeroDurationTick : PlaybackTick where
  position := 5000
  duration := 0
  paused := false

/-- A fixed tuple of completion-code draws. -/
def zeroDraws : Fin 6 → ℚ := fun _ => 0

/-- API outcomes where playlist creation succeeds but adding the tracks
fails. -/
def failingOutcomes : ApiOutcomes where
  createPlaylistOk := true
  addTracksOk := false
  getDevicesOk := true
  deviceFound := true
  transferOk := true
  playOk := true

/-! ## Helper lemmas -/

theorem listStartsWith_append (p t : List Char) :
    listStartsWith p (p ++ t) = true := by
  induction p with
  | nil => rfl
  | cons c cs ih => simp [listStartsWith, ih]

theorem splitOnColon_ne_nil (l : List Char) : splitOnColon l ≠ [] := by
  cases l with
  | nil => simp [splitOnColon]
  | cons c rest =>
    simp only [splitOnColon]
    rcases h : splitOnColon rest with _ | ⟨s, ss⟩
    · simp
    · by_cases hc : c = ':' <;> simp [hc]

theorem splitOnColon_noColon (t : List Char) (h : (':' : Char) ∉ t) :
    splitOnColon t = [t] := by
  induction t with
  | nil => rfl
  | cons c rest ih =>
    have hc : c ≠ ':' := fun hx => h (hx ▸ List.mem_cons_self c rest)
    have hrest : (':' : Char) ∉ rest := fun hx => h (List.mem_cons_of_mem c hx)
    simp [splitOnColon, ih hrest, hc]

theorem splitOnColon_append_noColon (xs l : List Char) (s : List Char)
    (ss : List (List Char)) (hx : (':' : Char) ∉ xs)
    (hl : splitOnColon l = s :: ss) :
    splitOnColon (xs ++ l) = (xs ++ s) :: ss := by
  induction xs with
  | nil => simpa using hl
  | cons c cs ih =>
    have hc : c ≠ ':' := fun h => hx (h ▸ List.mem_cons_self c cs)
    have hcs : (':' : Char) ∉ cs := fun h => hx (List.mem_cons_of_mem c h)
    simp [splitOnColon, ih hcs, hc]

theorem splitOnColon_colon_cons (l : List Char) :
    splitOnColon (':' :: l) = [] :: splitOnColon l := by
  simp only [splitOnColon]
  rcases h : splitOnColon l with _ | ⟨s, ss⟩
  · exact absurd h (splitOnColon_ne_nil l)
  · simp

/-- For a colon-free bare id, the full-URI split is exactly
`["spotify", "track", id]`. -/
theorem splitOnColon_scheme_append (t : List Char) (h : (':' : Char) ∉ t) :
    splitOnColon (trackUriScheme ++ t) = ["spotify".data, "track".data, t] := by
  have h1 : splitOnColon t = [t] := splitOnColon_noColon t h
  have h2 : splitOnColon (':' :: t) = [] :: [t] := by
    rw [splitOnColon_colon_cons, h1]
  have h3 : splitOnColon ("track".data ++ ':' :: t) = ("track".data ++ []) :: [t] :=
    splitOnColon_append_noColon "track".data (':' :: t) [] [t] (by decide) h2
  have h4 : splitOnColon (':' :: ("track".data ++ ':' :: t)) =
      [] :: ("track".data ++ []) :: [t] := by
    rw [splitOnColon_colon_cons, h3]
  have h5 : splitOnColon ("spotify".data ++ ':' :: ("track".data ++ ':' :: t)) =
      ("spotify".data ++ []) :: ("track".data ++ []) :: [t] :=
    splitOnColon_append_noColon "spotify".data (':' :: ("track".data ++ ':' :: t))
      [] (("track".data ++ []) :: [t]) (by decide) h4
  have harr : trackUriScheme ++ t =
      "spotify".data ++ ':' :: ("track".data ++ ':' :: t) := rfl
  rw [harr, h5]
  simp

/-! ## Claim theorems -/

/-- C10: `normalizeTrackUri` is idempotent, and for every bare track id that
does not start with the `'spotify:track:'` scheme and contains no colon,
`extractTrackId` recovers the id from the normalized URI. -/
theorem normalizeTrackUri_roundtrip :
    (∀ s, normalizeTrackUri (normalizeTrackUri s) = normalizeTrackUri s) ∧
    (∀ t, listStartsWith trackUriScheme t = false → (':' : Char) ∉ t →
      extractTrackId (normalizeTrackUri t) = t) := by
  constructor
  · intro s
    by_cases h : listStartsWith trackUriScheme s = true
    · simp [normalizeTrackUri, h]
    · simp [normalizeTrackUri, h, listStartsWith_append]
  · intro t h1 h2
    have hnorm : normalizeTrackUri t = trackUriScheme ++ t := by
      simp [normalizeTrackUri, h1]
    rw [hnorm, extractTrackId, if_pos (listStartsWith_append _ _),
      splitOnColon_scheme_append t h2]
    rfl

/-- C10 witness: the round trip at the concrete bare id `"abc"`. -/
theorem normalizeTrackUri_roundtrip_witness :
    extractTrackId (normalizeTrackUri ("abc".data)) = "abc".data :=
  normalizeTrackUri_roundtrip.2 ("abc".data) (by decide) (by decide)

/-- C3 counterexample: calling `playNextTrack` when `currentTrack` already
equals `trackOrder.length` does NOT increment the index — the function
early-returns, leaving `currentTrack` at 3 rather than the 4 the claim
demands. -/
theorem playNextTrack_exhausted_counterexample :
    exhaustedState.currentTrack = exhaustedState.trackOrder.length ∧
    (playNextTrack (1/2) (1/2) exhaustedState).1.currentTrack = 3 ∧
    (playNextTrack (1/2) (1/2) exhaustedState).1.currentTrack ≠
      exhaustedState.currentTrack + 1 := by
  have h : playNextTrack (1/2) (1/2) exhaustedState = (exhaustedState, [], []) := by
    simp [playNextTrack, exhaustedState, runningState, sampleOrder]
  refine ⟨by decide, by rw [h]; decide, by rw [h]; decide⟩

/-- C3 amended: when `currentTrack` has already reached `trackOrder.length`,
`playNextTrack` is a complete no-op: no play command is scheduled, no
telemetry is emitted, no exception is raised, and the index is NOT
incremented — the state is returned unchanged, so the session is also not
forced to `Completed`. -/
theorem playNextTrack_exhausted_noop (rImmediate rGap : ℚ) (s : GameState)
    (h : s.trackOrder.length ≤ s.currentTrack) :
    playNextTrack rImmediate rGap s = (s, [], []) := by
  simp [playNextTrack, h]

/-- C3 witness: the amended no-op at the concrete exhausted state. -/
theorem playNextTrack_exhausted_noop_witness :
    playNextTrack (1/2) (1/2) exhaustedState = (exhaustedState, [], []) :=
  playNextTrack_exhausted_noop (1/2) (1/2) exhaustedState (by decide)

/-- C8 counterexample: the draw `r = 3/4` lies in the claim's half-open
interval `[defaultProb, defaultProb + swap12)`, yet the code keeps the base
order instead of swapping positions 0 and 1, because the source tests
`rand > defaultProb` strictly. -/
theorem generateTrackOrder_boundary_counterexample :
    ORDER_VARIANCE.defaultProb ≤ (3/4 : ℚ) ∧
    (3/4 : ℚ) < ORDER_VARIANCE.defaultProb + ORDER_VARIANCE.swap12 ∧
    (generateTrackOrder 0 (3/4) initialGameState).trackOrder =
      [ANCHOR_TRACK, YOUR_TRACK, FILLER_POOL.getD 0 []].map normalizeTrackUri ∧
    (generateTrackOrder 0 (3/4) initialGameState).trackOrder ≠
      [YOUR_TRACK, ANCHOR_TRACK, FILLER_POOL.getD 0 []].map normalizeTrackUri := by
  have horder : (generateTrackOrder 0 (3/4) initialGameState).trackOrder =
      [ANCHOR_TRACK, YOUR_TRACK, FILLER_POOL.getD 0 []].map normalizeTrackUri := by
    simp only [generateTrackOrder]
    rw [if_neg (by norm_num [ORDER_VARIANCE])]
    norm_num [randomChoice, FILLER_POOL]
  refine ⟨by norm_num [ORDER_VARIANCE], by norm_num [ORDER_VARIANCE], horder, ?_⟩
  rw [horder]
  decide

/-- C8 amended: `generateTrackOrder` draws one uniform number `r` and swaps
positions 0/1 exactly when `r` lies in the OPEN-below interval
`(defaultProb, defaultProb + swap12)`, swaps positions 1/2 when
`r ≥ defaultProb + swap12`, and keeps the base order when
`r ≤ defaultProb` — the boundary `r = defaultProb` keeps the base order. -/
theorem generateTrackOrder_cases (rFiller r : ℚ) (s : GameState) :
    (r ≤ ORDER_VARIANCE.defaultProb →
      (generateTrackOrder rFiller r s).trackOrder =
        [ANCHOR_TRACK, YOUR_TRACK, randomChoice rFiller FILLER_POOL].map
          normalizeTrackUri) ∧
    (ORDER_VARIANCE.defaultProb < r →
      r < ORDER_VARIANCE.defaultProb + ORDER_VARIANCE.swap12 →
      (generateTrackOrder rFiller r s).trackOrder =
        [YOUR_TRACK, ANCHOR_TRACK, randomChoice rFiller FILLER_POOL].map
          normalizeTrackUri) ∧
    (ORDER_VARIANCE.defaultProb + ORDER_VARIANCE.swap12 ≤ r →
      (generateTrackOrder rFiller r s).trackOrder =
        [ANCHOR_TRACK, randomChoice rFiller FILLER_POOL, YOUR_TRACK].map
          normalizeTrackUri) := by
  refine ⟨fun h1 => ?_, fun h1 h2 => ?_, fun h1 => ?_⟩
  · simp [generateTrackOrder, not_lt.mpr h1]
  · simp [generateTrackOrder, h1, h2]
  · have hgt : ORDER_VARIANCE.defaultProb < r := by
      have : ORDER_VARIANCE.defaultProb < ORDER_VARIANCE.defaultProb +
          ORDER_VARIANCE.swap12 := by norm_num [ORDER_VARIANCE]
      linarith
    simp [generateTrackOrder, hgt, not_lt.mpr h1]

/-- C8 witness: a draw strictly inside `(defaultProb, defaultProb+swap12)`
swaps positions 0 and 1. -/
theorem generateTrackOrder_cases_witness :
    (generateTrackOrder 0 (80/100) initialGameState).trackOrder =
      [YOUR_TRACK, ANCHOR_TRACK, randomChoice 0 FILLER_POOL].map
        normalizeTrackUri :=
  (generateTrackOrder_cases 0 (80/100) initialGameState).2.1
    (by norm_num [ORDER_VARIANCE]) (by norm_num [ORDER_VARIANCE])

/-- C1: the completion transition runs exactly once.  From a not-yet-completed
state, `unlockCompletion` sets `completionCode`, cancels both periodic
timers, and emits exactly one `session_completed` telemetry record; a second
`unlockCompletion` (e.g. `finishEarly` firing in the same tick) and any
further `maybeUnlockCompletion` are no-ops that change no session state and
emit nothing, and in general any invocation on a state whose
`completionCode` is already non-null returns the state unchanged with no
event. -/
theorem unlockCompletion_once (s : GameState) (d1 d2 : Fin 6 → ℚ)
    (h : s.completionCode = none) :
    (unlockCompletion d1 s).1.completionCode =
      some (generateCompletionCode d1) ∧
    (unlockCompletion d1 s).1.sessionTimer = false ∧
    (unlockCompletion d1 s).1.unlockTimer = false ∧
    (unlockCompletion d1 s).2 = [TelemetryKind.sessionCompleted] ∧
    unlockCompletion d2 (unlockCompletion d1 s).1 =
      ((unlockCompletion d1 s).1, []) ∧
    (∀ now, maybeUnlockCompletion now d2 (unlockCompletion d1 s).1 =
      ((unlockCompletion d1 s).1, [], [])) ∧
    (∀ s2 d, s2.completionCode.isSome = true →
      unlockCompletion d s2 = (s2, [])) := by
  refine ⟨?_, ?_, ?_, ?_, ?_, ?_, fun s2 d hd => ?_⟩ <;>
    simp [unlockCompletion, maybeUnlockCompletion, h, *]

/-- C1 witness: one completed-event emission at the concrete running state. -/
theorem unlockCompletion_once_witness :
    (unlockCompletion zeroDraws runningState).2 =
      [TelemetryKind.sessionCompleted] :=
  (unlockCompletion_once runningState zeroDraws zeroDraws rfl).2.2.2.1

/-- C2: `maybeUnlockCompletion` transitions to Completed (sets a completion
code) exactly when `completionCode` was null, the elapsed time since start
is at least `sessionDuration`, and the number of completed tracks equals the
track-order length; and whenever some track is missing from
`tracksCompleted`, the state is returned entirely unchanged, no matter how
much time has elapsed. -/
theorem maybeUnlockCompletion_completes_iff (now : ℚ) (d : Fin 6 → ℚ)
    (s : GameState) (t : ℚ) (h : s.startedAt = some t) (ht : t ≠ 0) :
    (((maybeUnlockCompletion now d s).1.completionCode.isSome = true ∧
        s.completionCode = none) ↔
      (s.completionCode = none ∧ s.sessionDuration ≤ now - t ∧
        s.tracksCompleted.card = s.trackOrder.length)) ∧
    (s.tracksCompleted.card ≠ s.trackOrder.length →
      (maybeUnlockCompletion now d s).1 = s) := by
  have helapsed : startedAtOrNow s.startedAt now = t := by
    simp [startedAtOrNow, h, ht]
  rcases hcc : s.completionCode with _ | c <;>
    refine ⟨?_, fun hne => ?_⟩ <;>
    · simp only [maybeUnlockCompletion, unlockCompletion, helapsed, hcc]
      split_ifs <;> simp_all

/-- C2 witness: at the concrete all-done state past the full duration, the
completion code is set. -/
theorem maybeUnlockCompletion_completes_iff_witness :
    (maybeUnlockCompletion 302000 zeroDraws
      completedReadyState).1.completionCode.isSome = true :=
  (((maybeUnlockCompletion_completes_iff 302000 zeroDraws completedReadyState
      1000 rfl (by norm_num)).1).mpr
    ⟨rfl, by norm_num [completedReadyState, runningState], by decide⟩).1

/-- C5: with every track completed, once elapsed time reaches
`earlyFinishThreshold` but is still short of `sessionDuration`,
`maybeUnlockCompletion` only surfaces the early-finish UI affordance: the
state is returned unchanged (in particular `completionCode` stays null and
both timers stay armed) and no telemetry is emitted, so the transition to
Completed can only happen through an explicit `unlockCompletion`
(`finishEarly`) call. -/
theorem maybeUnlockCompletion_earlyWindow (now : ℚ) (d : Fin 6 → ℚ)
    (s : GameState) (t : ℚ)
    (h0 : s.completionCode = none) (h : s.startedAt = some t) (ht : t ≠ 0)
    (hall : s.tracksCompleted.card = s.trackOrder.length)
    (hearly : s.earlyFinishThreshold ≤ now - t)
    (hdur : now - t < s.sessionDuration) :
    maybeUnlockCompletion now d s = (s, [], [UiSignal.earlyFinishOption]) := by
  have helapsed : startedAtOrNow s.startedAt now = t := by
    simp [startedAtOrNow, h, ht]
  simp [maybeUnlockCompletion, helapsed, h0, hall, hearly, not_le.mpr hdur]

/-- C5 witness: the early-finish window at the concrete all-done state. -/
theorem maybeUnlockCompletion_earlyWindow_witness :
    maybeUnlockCompletion 250000 zeroDraws completedReadyState =
      (completedReadyState, [], [UiSignal.earlyFinishOption]) :=
  maybeUnlockCompletion_earlyWindow 250000 zeroDraws completedReadyState 1000
    rfl rfl (by norm_num) (by decide)
    (by norm_num [completedReadyState, runningState])
    (by norm_num [completedReadyState, runningState])

theorem randomBetween_lb (r lo hi : ℚ) (h0 : 0 ≤ r) (hlh : lo ≤ hi) :
    lo ≤ randomBetween r lo hi := by
  simp only [randomBetween]
  nlinarith

theorem randomBetween_ub (r lo hi : ℚ) (h1 : r < 1) (hlh : lo ≤ hi) :
    randomBetween r lo hi ≤ hi := by
  simp only [randomBetween]
  nlinarith

/-- C7: every generated session configuration satisfies
`0 < earlyFinishThreshold ≤ sessionDuration`, `minTrackRatio ∈ (0, 1]`, and a
track order of length exactly 3, for any outcome of the uniform draws in
`[0, 1)`. -/
theorem generateSessionParameters_invariants (d : ParamDraws) (s : GameState)
    (hd0 : 0 ≤ d.rDuration) (hd1 : d.rDuration < 1)
    (he0 : 0 ≤ d.rEarly) (he1 : d.rEarly < 1)
    (hr0 : 0 ≤ d.rRatio) (hr1 : d.rRatio < 1) :
    0 < (generateSessionParameters d s).earlyFinishThreshold ∧
    (generateSessionParameters d s).earlyFinishThreshold ≤
      (generateSessionParameters d s).sessionDuration ∧
    0 < (generateSessionParameters d s).minTrackRatio ∧
    (generateSessionParameters d s).minTrackRatio ≤ 1 ∧
    (generateSessionParameters d s).trackOrder.length = 3 := by
  have hdur : (0:ℚ) < randomBetween d.rDuration (11 * 60 * 1000)
      (14 * 60 * 1000) := by
    have := randomBetween_lb d.rDuration (11 * 60 * 1000) (14 * 60 * 1000)
      hd0 (by norm_num)
    linarith
  have hfac0 : (0:ℚ) < randomBetween d.rEarly (80/100) (90/100) := by
    have := randomBetween_lb d.rEarly (80/100) (90/100) he0 (by norm_num)
    linarith
  have hfac1 : randomBetween d.rEarly (80/100) (90/100) ≤ 1 := by
    have := randomBetween_ub d.rEarly (80/100) (90/100) he1 (by norm_num)
    linarith
  simp only [generateSessionParameters, generateTrackOrder,
    REQUIRED_MS_VARIANT, EARLY_FINISH_WINDOW, MIN_TRACK_RATIO_DIST,
    SHOW_SAVE_PROMPT_PROB]
  refine ⟨?_, ?_, ?_, ?_, ?_⟩
  · exact mul_pos hdur hfac0
  · exact mul_le_of_le_one_right (le_of_lt hdur) hfac1
  · split_ifs
    · have := randomBetween_lb d.rRatio (72/100) (79/100) hr0 (by norm_num)
      linarith
    · have := randomBetween_lb d.rRatio (80/100) (94/100) hr0 (by norm_num)
      linarith
    · have := randomBetween_lb d.rRatio (95/100) 1 hr0 (by norm_num)
      linarith
  · split_ifs
    · have := randomBetween_ub d.rRatio (72/100) (79/100) hr1 (by norm_num)
      linarith
    · have := randomBetween_ub d.rRatio (80/100) (94/100) hr1 (by norm_num)
      linarith
    · exact randomBetween_ub d.rRatio (95/100) 1 hr1 (by norm_num)
  · split_ifs <;> simp

/-- C7 witness: the invariants at the concrete draws `1/2`. -/
theorem generateSessionParameters_invariants_witness :
    0 < (generateSessionParameters ⟨1/2, 1/2, 1/2, 1/2, 1/2, 1/2, 1/2⟩
      initialGameState).earlyFinishThreshold :=
  (generateSessionParameters_invariants ⟨1/2, 1/2, 1/2, 1/2, 1/2, 1/2, 1/2⟩
    initialGameState (by norm_num) (by norm_num) (by norm_num) (by norm_num)
    (by norm_num) (by norm_num)).1

theorem maybeUnlockCompletion_preserves (now : ℚ) (d : Fin 6 → ℚ)
    (x : GameState) :
    (maybeUnlockCompletion now d x).1.tracksCompleted = x.tracksCompleted ∧
    (maybeUnlockCompletion now d x).1.currentTrack = x.currentTrack ∧
    (maybeUnlockCompletion now d x).1.currentPosition = x.currentPosition ∧
    (maybeUnlockCompletion now d x).1.currentDuration = x.currentDuration := by
  simp only [maybeUnlockCompletion, unlockCompletion]
  split_ifs <;> simp

/-- C9: a playback tick whose reported duration is zero or negative is
processed totally and treats the progress ratio as 0: the set of completed
tracks is unchanged (the current track is not marked completed), no
track-end advance is scheduled, and the displayed progress ratio computed by
`updateTrackProgress` on the resulting state is 0 whenever it is shown at
all. -/
theorem handlePlayerStateChanged_zeroDuration (now : ℚ) (d : Fin 6 → ℚ)
    (tick : PlaybackTick) (s : GameState) (h : tick.duration ≤ 0) :
    (handlePlayerStateChanged now d (some tick) s).1.tracksCompleted =
      s.tracksCompleted ∧
    (handlePlayerStateChanged now d (some tick) s).2.2.2 = [] ∧
    ∀ q, updateTrackProgress (handlePlayerStateChanged now d (some tick) s).1 =
      some q → q = 0 := by
  have hnot : ¬ (0 < s.currentTrack ∧ 0 < tick.duration) := by
    rintro ⟨-, h2⟩
    exact absurd h (not_le.mpr h2)
  simp only [handlePlayerStateChanged, if_neg hnot]
  refine ⟨?_, ?_, fun q hq => ?_⟩
  · rw [(maybeUnlockCompletion_preserves now d _).1]
  · simp
  · rw [updateTrackProgress] at hq
    have hcd := (maybeUnlockCompletion_preserves now d
      { s with
        currentPosition := tick.position
        currentDuration := tick.duration
        isPlaying := !tick.paused }).2.2.2
    split_ifs at hq with hrange hdur2
    · rw [hcd] at hdur2
      exact absurd hdur2 (not_lt.mpr h)
    · exact (Option.some_inj.mp hq).symm

/-- C9 witness: the zero-duration tick at the concrete running state leaves
the completed set unchanged. -/
theorem handlePlayerStateChanged_zeroDuration_witness :
    (handlePlayerStateChanged 2000 zeroDraws (some zeroDurationTick)
      runningState).1.tracksCompleted = runningState.tracksCompleted :=
  (handlePlayerStateChanged_zeroDuration 2000 zeroDraws zeroDurationTick
    runningState (by norm_num [zeroDurationTick])).1

theorem playCurrentTrack_state (p : Bool) (r : ℚ) (x : GameState) :
    (playCurrentTrack p r x).1 = x := by
  simp only [playCurrentTrack]
  split_ifs <;> rfl

/-- C6 counterexample: when the playlist-creation POST succeeds but the
addTracks POST fails, `startSession` surfaces the error, yet the playlist
reference is retained in state — partial session state survives the failed
start, contradicting the claim. -/
theorem startSession_playlistRetained_counterexample :
    (startSession failingOutcomes 7 1000000 (1/2) initialGameState).2.1 =
      false ∧
    (startSession failingOutcomes 7 1000000 (1/2)
      initialGameState).1.playlist = some 7 := by
  constructor <;> rfl

/-- C6 amended: a failure of the playlist-creation call aborts `start()` with
the state fully unchanged; a failure of the addTracks call or of any
`transferPlayback` step aborts with `startedAt` still null and
`currentTrack` still 0, but with the playlist reference retained; and when
those calls all succeed the session starts (`startedAt` set,
`currentTrack = 1`) even if the play command itself fails, because
`playCurrentTrack` catches its own errors. -/
theorem startSession_failure_semantics (o : ApiOutcomes) (pl : ℕ)
    (now rNoise : ℚ) (s : GameState)
    (h2 : s.startedAt = none) (h3 : s.currentTrack = 0) :
    (o.createPlaylistOk = false →
      startSession o pl now rNoise s = (s, false, [], [])) ∧
    (o.createPlaylistOk = true → o.addTracksOk = false →
      (startSession o pl now rNoise s).2.1 = false ∧
      (startSession o pl now rNoise s).1.startedAt = none ∧
      (startSession o pl now rNoise s).1.currentTrack = 0 ∧
      (startSession o pl now rNoise s).1.playlist = some pl) ∧
    (o.createPlaylistOk = true → o.addTracksOk = true →
      (o.getDevicesOk = false ∨ o.deviceFound = false ∨
        o.transferOk = false) →
      (startSession o pl now rNoise s).2.1 = false ∧
      (startSession o pl now rNoise s).1.startedAt = none ∧
      (startSession o pl now rNoise s).1.currentTrack = 0 ∧
      (startSession o pl now rNoise s).1.playlist = some pl) ∧
    (o.createPlaylistOk = true → o.addTracksOk = true →
      o.getDevicesOk = true → o.deviceFound = true → o.transferOk = true →
      (startSession o pl now rNoise s).2.1 = true ∧
      (startSession o pl now rNoise s).1.startedAt = some now ∧
      (startSession o pl now rNoise s).1.currentTrack = 1) := by
  refine ⟨fun hc => ?_, fun hc ha => ?_, fun hc ha hfail => ?_,
    fun hc ha hg hd htr => ?_⟩
  · simp [startSession, createPlaylist, hc]
  · simp [startSession, createPlaylist, transferPlayback, hc, ha, h2, h3]
  · rcases hfail with hx | hx | hx <;>
      simp [startSession, createPlaylist, transferPlayback, hc, ha, h2, h3,
        hx]
  · simp [startSession, createPlaylist, transferPlayback, hc, ha, hg, hd,
      htr, playCurrentTrack_state]

/-- C6 witness: the amended semantics applied at the concrete
addTracks-failure outcome. -/
theorem startSession_failure_semantics_witness :
    (startSession failingOutcomes 7 1000000 (1/2)
      initialGameState).1.playlist = some 7 :=
  ((startSession_failure_semantics failingOutcomes 7 1000000 (1/2)
    initialGameState rfl rfl).2.1 rfl rfl).2.2.2

/-- C4: the end-of-track advance scheduling is NOT idempotent per track.  At
a concrete running state, a tick in the final second of track 1 schedules
`playNextTrack`, and a second tick satisfying the same condition for the
same track schedules it AGAIN, where the claim requires the second tick to
schedule nothing. -/
theorem handlePlayerStateChanged_doubleSchedules :
    (handlePlayerStateChanged 100000 zeroDraws (some endTick)
      runningState).2.2.2 = [ScheduledAction.playNextDelayed] ∧
    (handlePlayerStateChanged 101000 zeroDraws (some endTick)
      (handlePlayerStateChanged 100000 zeroDraws (some endTick)
        runningState).1).2.2.2 = [ScheduledAction.playNextDelayed] := by
  have h1 : handlePlayerStateChanged 100000 zeroDraws (some endTick)
      runningState =
      ({ runningState with
          currentPosition := 179500
          currentDuration := 180000
          isPlaying := true
          tracksCompleted := {1} },
        [], [], [ScheduledAction.playNextDelayed]) := by
    simp only [handlePlayerStateChanged, maybeUnlockCompletion,
      unlockCompletion, startedAtOrNow, runningState, endTick, sampleOrder]
    norm_num
  have h2 : handlePlayerStateChanged 101000 zeroDraws (some endTick)
      ({ runningState with
          currentPosition := 179500
          currentDuration := 180000
          isPlaying := true
          tracksCompleted := {1} } : GameState) =
      ({ runningState with
          currentPosition := 179500
          currentDuration := 180000
          isPlaying := true
          tracksCompleted := {1} },
        [], [], [ScheduledAction.playNextDelayed]) := by
    simp only [handlePlayerStateChanged, maybeUnlockCompletion,
      unlockCompletion, startedAtOrNow, runningState, endTick, sampleOrder]
    norm_num
  rw [h1, h2]
  exact ⟨rfl, rfl⟩

end Rhythm
